import Mathlib

/-!
Verification of the streaming relay layer of the sentryos-hackathon
repository, against src/src/app/api/chat/route.ts and
src/src/app/api/competitive-research/route.ts.

The two route handlers share the same shape; their ReadableStream bodies
(the event-translation loop, the sentinel write and the catch handler) are
textually identical up to telemetry metric names, so the stream pipeline is
embedded once and used for both.  Telemetry calls (sentryMetrics /
sentryLogger) are best-effort side channels; only the error-log context of
the catch handler is modelled, because a claim mentions its content.
-/

namespace SentryRelay

/-! ## Wire frames

Each `controller.enqueue` in the route writes one SSE line
`data: <json>\n\n`.  A frame is the payload of one such line; the literal
line `data: [DONE]\n\n` is modelled as the distinguished item
`OutItem.sentinel`.  JSON serialization of a frame is injective and never
produces the bare string `[DONE]`, so counting frames and the sentinel at
this granularity agrees with counting wire lines. -/

inductive Frame where
  | text_delta (text : String)
  | tool_start (tool : String)
  | tool_progress (tool : String) (elapsed : Int)
  | done
  | error (message : String)
deriving DecidableEq

inductive OutItem where
  | frame (f : Frame)
  | sentinel
deriving DecidableEq

/-! ## Upstream SDK messages, as the route inspects them

The loop body narrows each `message` by its `type` field:
`stream_event` (with `event.type === 'content_block_delta'` and
`event.delta?.type === 'text_delta'`), `assistant` (with
`message.message?.content` an array of blocks), `tool_progress`,
`result` (with a `subtype` string), anything else ignored.
`Option` models the optional-chaining (`?.`) and the Array.isArray guard:
`none` stands for a missing or non-array `content` and a missing `delta`. -/

inductive ContentBlock where
  | tool_use (name : String)
  | other (tag : String)
deriving DecidableEq

inductive DeltaKind where
  | text_delta (text : String)
  | other (tag : String)
deriving DecidableEq

inductive StreamEvent where
  | content_block_delta (delta : Option DeltaKind)
  | other (tag : String)
deriving DecidableEq

inductive SDKMessage where
  | stream_event (event : StreamEvent)
  | assistant (content : Option (List ContentBlock))
  | tool_progress (tool_name : String) (elapsed_time_seconds : Int)
  | result (subtype : String)
  | other (tag : String)
deriving DecidableEq

/-! ## Per-request mutable state

`let toolsUsed = new Set<string>()` and `let textChunksStreamed = 0`,
closed over by the stream callback.  A JS `Set` preserves insertion order
and ignores re-insertion, so it is embedded as a duplicate-free list with
order-preserving insert. -/

structure StreamState where
  toolsUsed : List String
  textChunksStreamed : Nat
deriving DecidableEq

def StreamState.init : StreamState := ⟨[], 0⟩

/-- Set.add on the toolsUsed set: insert at the end unless present. -/
def addTool (s : List String) (n : String) : List String :=
  if n ∈ s then s else s ++ [n]

/-- The inner `for (const block of content)` loop of the assistant-message
branch: every `tool_use` block adds its name to toolsUsed and enqueues a
`tool_start` frame (the enqueue is unconditional; the set membership is not
consulted). -/
def processBlocks : StreamState → List ContentBlock → List Frame × StreamState
  | st, [] => ([], st)
  | st, ContentBlock.tool_use name :: rest =>
    let st' : StreamState := { st with toolsUsed := addTool st.toolsUsed name }
    let r := processBlocks st' rest
    (Frame.tool_start name :: r.1, r.2)
  | st, ContentBlock.other _ :: rest => processBlocks st rest

/-- One iteration of the `for await (const message of query(...))` loop:
the frames enqueued for this message, and the updated closed-over state.
The source uses four independent `if` statements, but they test the single
`message.type` tag, so exactly one branch can fire per message. -/
def stepMessage (st : StreamState) (m : SDKMessage) : List Frame × StreamState :=
  match m with
  | SDKMessage.stream_event ev =>
    match ev with
    | StreamEvent.content_block_delta (some (DeltaKind.text_delta t)) =>
      ([Frame.text_delta t], { st with textChunksStreamed := st.textChunksStreamed + 1 })
    | _ => ([], st)
  | SDKMessage.assistant content =>
    match content with
    | some blocks => processBlocks st blocks
    | none => ([], st)
  | SDKMessage.tool_progress name elapsed => ([Frame.tool_progress name elapsed], st)
  | SDKMessage.result subtype =>
    if subtype = "success" then ([Frame.done], st)
    else ([Frame.error "Query did not complete successfully"], st)
  | SDKMessage.other _ => ([], st)

/-- The whole loop over the delivered upstream messages. -/
def runMessages : StreamState → List SDKMessage → List Frame × StreamState
  | st, [] => ([], st)
  | st, m :: ms =>
    let step := stepMessage st m
    let rest := runMessages step.2 ms
    (step.1 ++ rest.1, rest.2)

/-- One execution of the upstream iteration: the messages the iterator
yielded, and whether the iteration then raised instead of completing.
(When it raises, `delivered` is the prefix processed before the throw.) -/
structure UpstreamRun where
  delivered : List SDKMessage
  raises : Bool
deriving DecidableEq

/-- Content of the `sentryLogger.error('Stream error occurred', ...)` call
in the catch handler, restricted to the accumulated state it records. -/
structure ErrorLog where
  chunkCount : Nat
  toolsSeen : List String
deriving DecidableEq

structure StreamOutcome where
  items : List OutItem
  closed : Bool
  errorLog : Option ErrorLog
deriving DecidableEq

/-- The `start(controller)` body: run the loop; on normal completion
enqueue the sentinel line and close; if the iteration raised, the catch
handler logs the accumulated state, enqueues an `error` frame and closes —
it does not enqueue the sentinel. -/
def runStream (run : UpstreamRun) : StreamOutcome :=
  let r := runMessages StreamState.init run.delivered
  if run.raises then
    { items := r.1.map OutItem.frame ++ [OutItem.frame (Frame.error "Stream error occurred")]
      closed := true
      errorLog := some ⟨r.2.textChunksStreamed, r.2.toolsUsed⟩ }
  else
    { items := r.1.map OutItem.frame ++ [OutItem.sentinel]
      closed := true
      errorLog := none }

/-! ## Predicates used to count frames and classify upstream messages -/

def isSentinel : OutItem → Bool
  | OutItem.sentinel => true
  | OutItem.frame _ => false

def isDoneItem : OutItem → Bool
  | OutItem.frame Frame.done => true
  | _ => false

def isErrorItem : OutItem → Bool
  | OutItem.frame (Frame.error _) => true
  | _ => false

def isToolStartItem : OutItem → Bool
  | OutItem.frame (Frame.tool_start _) => true
  | _ => false

def isDoneFrame : Frame → Bool
  | Frame.done => true
  | _ => false

def isErrorFrame : Frame → Bool
  | Frame.error _ => true
  | _ => false

def isToolStartFrame : Frame → Bool
  | Frame.tool_start _ => true
  | _ => false

def isSuccessResult : SDKMessage → Bool
  | SDKMessage.result s => s == "success"
  | _ => false

def isFailureResult : SDKMessage → Bool
  | SDKMessage.result s => !(s == "success")
  | _ => false

def isResultMsg : SDKMessage → Bool
  | SDKMessage.result _ => true
  | _ => false

def blockIsToolUse : ContentBlock → Bool
  | ContentBlock.tool_use _ => true
  | ContentBlock.other _ => false

/-- Number of tool_use blocks across the delivered assistant messages. -/
def msgToolUseCount (m : SDKMessage) : Nat :=
  match m with
  | SDKMessage.assistant (some blocks) => blocks.countP blockIsToolUse
  | _ => 0

def toolUseBlockCount (ms : List SDKMessage) : Nat :=
  (ms.map msgToolUseCount).sum

def frameText : Frame → Option String
  | Frame.text_delta t => some t
  | _ => none

def itemText : OutItem → Option String
  | OutItem.frame f => frameText f
  | OutItem.sentinel => none

def upstreamText : SDKMessage → Option String
  | SDKMessage.stream_event (StreamEvent.content_block_delta (some (DeltaKind.text_delta t))) => some t
  | _ => none

/-- Texts of the text_delta frames of an outbound item sequence, in order. -/
def frameTexts (items : List OutItem) : List String :=
  items.filterMap itemText

/-- Text fragments of the delivered stream_delta events, in order. -/
def upstreamTexts (ms : List SDKMessage) : List String :=
  ms.filterMap upstreamText

/-! ## Request bodies and the validation phase of POST

`await request.json()` yields a JSON value; a malformed body makes it
throw, which the outer catch turns into the 500 response.  Numbers are
embedded as integers: no claim involves numeric request fields. -/

inductive Json where
  | null
  | bool (b : Bool)
  | num (n : Int)
  | str (s : String)
  | arr (elems : List Json)
  | obj (fields : List (String × Json))

/-- Property lookup, as used by the destructuring `const { messages } = body`
and by `m.role`: objects look the key up, every other value (except `null`,
handled at the call site because destructuring `null` throws) has no such
property, giving `undefined` = `none`. -/
def Json.getField (j : Json) (key : String) : Option Json :=
  match j with
  | Json.obj fields => fields.lookup key
  | _ => none

/-- The element predicate `m.role === 'user'` used by
`messages.filter(m => m.role === 'user')` on the raw parsed elements. -/
def jsonRoleIsUser (m : Json) : Bool :=
  match m.getField "role" with
  | some (Json.str s) => s == "user"
  | _ => false

/-- Response bodies are the exact `JSON.stringify` outputs of the route. -/
def missingMessagesBody : String := "\x7b\"error\":\"Messages array is required\"\x7d"

def noUserBody : String := "\x7b\"error\":\"No user message found\"\x7d"

def chat500Body : String :=
  "\x7b\"error\":\"Failed to process chat request. Check server logs for details.\"\x7d"

def research500Body : String :=
  "\x7b\"error\":\"Failed to process competitive research request. Check server logs for details.\"\x7d"

/-- Outcome of the setup/validation phase of a POST handler: an immediate
JSON response (status and body), or the 200 streaming response; the stream
branch carries the raw validated messages and the selected last user
message, from which the prompt and the stream are built. -/
inductive ChatResponse where
  | jsonResponse (status : Nat) (body : String)
  | streamResponse (messages : List Json) (lastUserMessage : Json)

/-- Validation phase of `POST` in src/src/app/api/chat/route.ts
(lines 26-74): `none` models a body on which `request.json()` throws
(malformed JSON), caught by the outer catch as HTTP 500; destructuring a
`null` body throws a TypeError, caught the same way.  The guard
`if (!messages || !Array.isArray(messages))` admits exactly the case where
the `messages` property is an array (arrays are truthy, and every
non-array value either is falsy or fails Array.isArray), so it is embedded
as the match on `some (Json.arr elems)`.  Then
`messages.filter(m => m.role === 'user').pop()` selects the last user
element, and its absence yields the second 400. -/
def chatValidate (body : Option Json) : ChatResponse :=
  match body with
  | none => ChatResponse.jsonResponse 500 chat500Body
  | some Json.null => ChatResponse.jsonResponse 500 chat500Body
  | some j =>
    match j.getField "messages" with
    | some (Json.arr elems) =>
      match (elems.filter jsonRoleIsUser).getLast? with
      | some lastUser => ChatResponse.streamResponse elems lastUser
      | none => ChatResponse.jsonResponse 400 noUserBody
    | _ => ChatResponse.jsonResponse 400 missingMessagesBody

/-- Validation phase of `POST` in
src/src/app/api/competitive-research/route.ts (lines 43-91): identical to
the chat route (it additionally destructures an optional `model` field,
which does not affect validation), with its own 500 body. -/
def researchValidate (body : Option Json) : ChatResponse :=
  match body with
  | none => ChatResponse.jsonResponse 500 research500Body
  | some Json.null => ChatResponse.jsonResponse 500 research500Body
  | some j =>
    match j.getField "messages" with
    | some (Json.arr elems) =>
      match (elems.filter jsonRoleIsUser).getLast? with
      | some lastUser => ChatResponse.streamResponse elems lastUser
      | none => ChatResponse.jsonResponse 400 noUserBody
    | _ => ChatResponse.jsonResponse 400 missingMessagesBody

/-! ## Prompt assembly (typed view)

The route declares `messages: MessageInput[]` with
`role: 'user' | 'assistant'` and `content: string`; prompt assembly
(lines 60-93 of the chat route) is embedded over that typed view. -/

inductive Role where
  | user
  | assistant
deriving DecidableEq

structure MessageInput where
  role : Role
  content : String
deriving DecidableEq

/-- The SYSTEM_PROMPT constant of src/src/app/api/chat/route.ts. -/
def SYSTEM_PROMPT : String :=
  "You are a helpful personal assistant designed to help with general research, questions, and tasks.\n\nYour role is to:\n- Answer questions on any topic accurately and thoroughly\n- Help with research by searching the web for current information\n- Assist with writing, editing, and brainstorming\n- Provide explanations and summaries of complex topics\n- Help solve problems and think through decisions\n\nGuidelines:\n- Be friendly, clear, and conversational\n- Use web search when you need current information, facts you\x27re unsure about, or real-time data\n- Keep responses concise but complete - expand when the topic warrants depth\n- Use markdown formatting when it helps readability (bullet points, code blocks, etc.)\n- Be honest when you don\x27t know something and offer to search for answers"

/-- One transcript line:
`` `${m.role === 'user' ? 'User' : 'Assistant'}: ${m.content}` ``. -/
def renderMessage (m : MessageInput) : String :=
  (if m.role = Role.user then "User" else "Assistant") ++ ": " ++ m.content

/-- Array.prototype.join: empty list gives the empty string, otherwise the
elements separated by `sep`. -/
def joinSep (sep : String) : List String → String
  | [] => ""
  | [x] => x
  | x :: y :: rest => x ++ sep ++ joinSep sep (y :: rest)

/-- `messages.slice(0, -1).map(...).join('\n\n')`: the transcript of every
message except the last one. -/
def conversationContext (messages : List MessageInput) : String :=
  joinSep "\n\n" (messages.dropLast.map renderMessage)

/-- `messages.filter(m => m.role === 'user').pop()`: the last user message. -/
def lastUserMessage (messages : List MessageInput) : Option MessageInput :=
  (messages.filter fun m => m.role == Role.user).getLast?

/-- The `fullPrompt` ternary: the JS condition `conversationContext ? _ : _`
tests string truthiness, i.e. non-emptiness.  A pure function of the
request, as the spec notes: no truncation or summarization. -/
def fullPrompt (messages : List MessageInput) (lastUser : MessageInput) : String :=
  let ctx := conversationContext messages
  if ctx = "" then
    SYSTEM_PROMPT ++ "\n\nUser: " ++ lastUser.content
  else
    SYSTEM_PROMPT ++ "\n\nPrevious conversation:\n" ++ ctx ++ "\n\nUser: " ++ lastUser.content

/-! ## Helper lemmas about the stream pipeline -/

lemma processBlocks_countP_zero (p : Frame → Bool) (h : ∀ n, p (Frame.tool_start n) = false) :
    ∀ (st : StreamState) (bs : List ContentBlock), ((processBlocks st bs).1).countP p = 0 := by
  intro st bs
  induction bs generalizing st with
  | nil => simp [processBlocks]
  | cons b rest ih =>
    cases b with
    | tool_use n => simp [processBlocks, List.countP_cons, ih, h]
    | other t => simp [processBlocks, ih]

lemma processBlocks_countP_toolStart :
    ∀ (st : StreamState) (bs : List ContentBlock),
      ((processBlocks st bs).1).countP isToolStartFrame = bs.countP blockIsToolUse := by
  intro st bs
  induction bs generalizing st with
  | nil => simp [processBlocks]
  | cons b rest ih =>
    cases b with
    | tool_use n =>
      simp [processBlocks, List.countP_cons, ih, isToolStartFrame, blockIsToolUse]
    | other t =>
      simp [processBlocks, List.countP_cons, ih, blockIsToolUse]

lemma processBlocks_filterMap_none (t : Frame → Option String)
    (h : ∀ n, t (Frame.tool_start n) = none) :
    ∀ (st : StreamState) (bs : List ContentBlock), ((processBlocks st bs).1).filterMap t = [] := by
  intro st bs
  induction bs generalizing st with
  | nil => simp [processBlocks]
  | cons b rest ih =>
    cases b with
    | tool_use n => simp [processBlocks, List.filterMap_cons, h, ih]
    | other t' => simp [processBlocks, ih]

lemma runMessages_countP (p : Frame → Bool) (g : SDKMessage → Nat)
    (h : ∀ st m, ((stepMessage st m).1).countP p = g m) :
    ∀ (st : StreamState) (ms : List SDKMessage),
      ((runMessages st ms).1).countP p = (ms.map g).sum := by
  intro st ms
  induction ms generalizing st with
  | nil => simp [runMessages]
  | cons m rest ih => simp [runMessages, List.countP_append, h, ih]

lemma runMessages_filterMap (t : Frame → Option String) (u : SDKMessage → Option String)
    (h : ∀ st m, ((stepMessage st m).1).filterMap t = (u m).toList) :
    ∀ (st : StreamState) (ms : List SDKMessage),
      ((runMessages st ms).1).filterMap t = ms.filterMap u := by
  intro st ms
  induction ms generalizing st with
  | nil => simp [runMessages]
  | cons m rest ih =>
    simp only [runMessages, List.filterMap_append, h, ih, List.filterMap_cons]
    cases u m <;> simp

lemma stepMessage_countP_done (st : StreamState) (m : SDKMessage) :
    ((stepMessage st m).1).countP isDoneFrame = (if isSuccessResult m then 1 else 0) := by
  cases m with
  | stream_event ev =>
    cases ev with
    | content_block_delta d =>
      cases d with
      | none => simp [stepMessage, isSuccessResult]
      | some dk => cases dk <;> simp [stepMessage, isSuccessResult, isDoneFrame]
    | other t => simp [stepMessage, isSuccessResult]
  | assistant c =>
    cases c with
    | none => simp [stepMessage, isSuccessResult]
    | some blocks =>
      simp [stepMessage, isSuccessResult,
        processBlocks_countP_zero isDoneFrame (fun _ => rfl) st blocks]
  | tool_progress n e => simp [stepMessage, isSuccessResult, isDoneFrame]
  | result s =>
    by_cases hs : s = "success" <;>
      simp [stepMessage, hs, isSuccessResult, isDoneFrame]
  | other t => simp [stepMessage, isSuccessResult]

lemma stepMessage_countP_error (st : StreamState) (m : SDKMessage) :
    ((stepMessage st m).1).countP isErrorFrame = (if isFailureResult m then 1 else 0) := by
  cases m with
  | stream_event ev =>
    cases ev with
    | content_block_delta d =>
      cases d with
      | none => simp [stepMessage, isFailureResult]
      | some dk => cases dk <;> simp [stepMessage, isFailureResult, isErrorFrame]
    | other t => simp [stepMessage, isFailureResult]
  | assistant c =>
    cases c with
    | none => simp [stepMessage, isFailureResult]
    | some blocks =>
      simp [stepMessage, isFailureResult,
        processBlocks_countP_zero isErrorFrame (fun _ => rfl) st blocks]
  | tool_progress n e => simp [stepMessage, isFailureResult, isErrorFrame]
  | result s =>
    by_cases hs : s = "success" <;>
      simp [stepMessage, hs, isFailureResult, isErrorFrame]
  | other t => simp [stepMessage, isFailureResult]

lemma stepMessage_countP_toolStart (st : StreamState) (m : SDKMessage) :
    ((stepMessage st m).1).countP isToolStartFrame = msgToolUseCount m := by
  cases m with
  | stream_event ev =>
    cases ev with
    | content_block_delta d =>
      cases d with
      | none => simp [stepMessage, msgToolUseCount]
      | some dk => cases dk <;> simp [stepMessage, msgToolUseCount, isToolStartFrame]
    | other t => simp [stepMessage, msgToolUseCount]
  | assistant c =>
    cases c with
    | none => simp [stepMessage, msgToolUseCount]
    | some blocks => simp [stepMessage, msgToolUseCount, processBlocks_countP_toolStart st blocks]
  | tool_progress n e => simp [stepMessage, msgToolUseCount, isToolStartFrame]
  | result s =>
    by_cases hs : s = "success" <;>
      simp [stepMessage, hs, msgToolUseCount, isToolStartFrame]
  | other t => simp [stepMessage, msgToolUseCount]

lemma stepMessage_filterMap_text (st : StreamState) (m : SDKMessage) :
    ((stepMessage st m).1).filterMap frameText = (upstreamText m).toList := by
  cases m with
  | stream_event ev =>
    cases ev with
    | content_block_delta d =>
      cases d with
      | none => simp [stepMessage, upstreamText]
      | some dk =>
        cases dk <;> simp [stepMessage, upstreamText, List.filterMap_cons, frameText]
    | other t => simp [stepMessage, upstreamText]
  | assistant c =>
    cases c with
    | none => simp [stepMessage, upstreamText]
    | some blocks =>
      simp [stepMessage, upstreamText,
        processBlocks_filterMap_none frameText (fun _ => rfl) st blocks]
  | tool_progress n e => simp [stepMessage, upstreamText, List.filterMap_cons, frameText]
  | result s =>
    by_cases hs : s = "success" <;>
      simp [stepMessage, hs, upstreamText, List.filterMap_cons, frameText]
  | other t => simp [stepMessage, upstreamText]

lemma countP_map_frame (p : OutItem → Bool) (q : Frame → Bool)
    (h : ∀ f, p (OutItem.frame f) = q f) (fs : List Frame) :
    (fs.map OutItem.frame).countP p = fs.countP q := by
  rw [List.countP_map]
  congr 1
  funext f
  exact h f

lemma countP_map_frame_sentinel (fs : List Frame) :
    (fs.map OutItem.frame).countP isSentinel = 0 := by
  rw [countP_map_frame isSentinel (fun _ => false) (fun _ => rfl) fs]
  simp

/-- A Nat-valued indicator sum equals countP. -/
lemma sum_map_ite_eq_countP (q : α → Bool) (l : List α) :
    (l.map fun a => if q a then 1 else 0).sum = l.countP q := by
  induction l with
  | nil => simp
  | cons a rest ih => by_cases hq : q a <;> simp [List.countP_cons, hq, ih, Nat.add_comm]

lemma filterMap_itemText_map_frame (fs : List Frame) :
    (fs.map OutItem.frame).filterMap itemText = fs.filterMap frameText := by
  rw [List.filterMap_map]
  congr 1

lemma filterMap_itemText_comp (fs : List Frame) :
    List.filterMap (itemText ∘ OutItem.frame) fs = List.filterMap frameText fs := by
  congr 1

lemma countP_isDoneItem_frame (f : Frame) : isDoneItem (OutItem.frame f) = isDoneFrame f := by
  cases f <;> rfl

lemma countP_isErrorItem_frame (f : Frame) : isErrorItem (OutItem.frame f) = isErrorFrame f := by
  cases f <;> rfl

lemma countP_isToolStartItem_frame (f : Frame) :
    isToolStartItem (OutItem.frame f) = isToolStartFrame f := by
  cases f <;> rfl

/-! ## Helper lemmas for prompt assembly -/

lemma getLast?_eq_dropLast_concat {α : Type} {l : List α} {a : α}
    (h : l.getLast? = some a) : l = l.dropLast ++ [a] := by
  have hne : l ≠ [] := by
    intro he
    subst he
    simp at h
  rw [List.getLast?_eq_getLast l hne] at h
  have ha : l.getLast hne = a := by injection h
  rw [← ha]
  exact (List.dropLast_append_getLast hne).symm

lemma mem_joinSep (sep : String) {a : String} :
    ∀ {l : List String}, a ∈ l → ∃ p q, joinSep sep l = p ++ a ++ q := by
  intro l h
  induction l with
  | nil => cases h
  | cons x rest ih =>
    cases rest with
    | nil =>
      have hx : a = x := by simpa using h
      subst hx
      exact ⟨"", "", by simp [joinSep]⟩
    | cons y t =>
      rcases List.mem_cons.mp h with hx | hmem
      · subst hx
        exact ⟨"", sep ++ joinSep sep (y :: t), by simp [joinSep, String.append_assoc]⟩
      · obtain ⟨p, q, hpq⟩ := ih hmem
        refine ⟨x ++ sep ++ p, q, ?_⟩
        simp [joinSep, hpq, String.append_assoc]

lemma renderMessage_user {u : MessageInput} (h : u.role = Role.user) :
    renderMessage u = "User: " ++ u.content := by
  have : ("User" ++ ": " : String) = "User: " := rfl
  simp [renderMessage, h, ← this, String.append_assoc]

/-! ## Claim theorems -/

/-- C1 (counterexample): on a request whose upstream iteration raises, the
catch handler enqueues the error frame and closes without writing the
sentinel line, so the outbound stream does not contain exactly one
sentinel. -/
theorem sentinel_missing_when_iteration_raises :
    ¬ ((runStream ⟨[], true⟩).items.countP isSentinel = 1) := by decide

/-- C1 (amended): the channel is closed on every path; on a run whose
upstream iteration completes without raising, exactly one sentinel is
emitted, as the very last item (after any terminal done or error frame,
with nothing following it); on a raising run no sentinel is emitted at
all. -/
theorem sentinel_exactly_once_unless_raise (run : UpstreamRun) :
    (runStream run).closed = true ∧
    (if run.raises then (runStream run).items.countP isSentinel = 0
     else (runStream run).items.countP isSentinel = 1 ∧
       (runStream run).items.getLast? = some OutItem.sentinel) := by
  obtain ⟨ms, raises⟩ := run
  cases raises <;>
    simp [runStream, List.countP_append, List.countP_cons, countP_map_frame_sentinel,
      isSentinel, List.getLast?_concat]

/-- C2 (counterexample): on a run that raises after one text delta and
before any completion event, the last outbound item is the error frame
itself and no sentinel follows it, refuting the claim that the error frame
is followed by the sentinel. -/
theorem error_frame_without_sentinel_on_raise :
    (runStream ⟨[SDKMessage.stream_event (StreamEvent.content_block_delta
        (some (DeltaKind.text_delta "hi")))], true⟩).items.getLast?
      = some (OutItem.frame (Frame.error "Stream error occurred")) ∧
    ¬ ((runStream ⟨[SDKMessage.stream_event (StreamEvent.content_block_delta
        (some (DeltaKind.text_delta "hi")))], true⟩).items.countP isSentinel = 1) := by
  decide

/-- C2 (amended): when upstream iteration raises before any completion
event, the outbound stream contains exactly one error frame, which is the
last item (no sentinel follows it), the channel is closed, and the error
log records the accumulated chunkCount and toolsSeen. -/
theorem raise_before_completion_one_error_closed (ms : List SDKMessage)
    (h : ms.countP isResultMsg = 0) :
    (runStream ⟨ms, true⟩).items.countP isErrorItem = 1 ∧
    (runStream ⟨ms, true⟩).items.getLast?
      = some (OutItem.frame (Frame.error "Stream error occurred")) ∧
    (runStream ⟨ms, true⟩).items.countP isSentinel = 0 ∧
    (runStream ⟨ms, true⟩).closed = true ∧
    (runStream ⟨ms, true⟩).errorLog
      = some ⟨((runMessages StreamState.init ms).2).textChunksStreamed,
              ((runMessages StreamState.init ms).2).toolsUsed⟩ := by
  have herr : ((runMessages StreamState.init ms).1).countP isErrorFrame = 0 := by
    rw [runMessages_countP isErrorFrame _ stepMessage_countP_error, sum_map_ite_eq_countP]
    have hle : ms.countP isFailureResult ≤ ms.countP isResultMsg :=
      List.countP_mono_left (by
        intro x hx hfx
        cases x <;> simp_all [isFailureResult, isResultMsg])
    omega
  refine ⟨?_, ?_, ?_, ?_, ?_⟩
  · simp [runStream, List.countP_append, List.countP_cons,
      countP_map_frame isErrorItem isErrorFrame countP_isErrorItem_frame, herr, isErrorItem]
  · simp [runStream, List.getLast?_concat]
  · simp [runStream, List.countP_append, List.countP_cons, countP_map_frame_sentinel, isSentinel]
  · simp [runStream]
  · simp [runStream]

/-- C2 (witness): the amended theorem at a concrete raising run with one
tool-progress event and no completion event. -/
theorem raise_before_completion_one_error_closed_witness :
    ([SDKMessage.tool_progress "WebSearch" 2].countP isResultMsg = 0) ∧
    ((runStream ⟨[SDKMessage.tool_progress "WebSearch" 2], true⟩).items.countP isErrorItem = 1 ∧
     (runStream ⟨[SDKMessage.tool_progress "WebSearch" 2], true⟩).items.getLast?
       = some (OutItem.frame (Frame.error "Stream error occurred")) ∧
     (runStream ⟨[SDKMessage.tool_progress "WebSearch" 2], true⟩).items.countP isSentinel = 0 ∧
     (runStream ⟨[SDKMessage.tool_progress "WebSearch" 2], true⟩).closed = true ∧
     (runStream ⟨[SDKMessage.tool_progress "WebSearch" 2], true⟩).errorLog
       = some ⟨((runMessages StreamState.init [SDKMessage.tool_progress "WebSearch" 2]).2).textChunksStreamed,
               ((runMessages StreamState.init [SDKMessage.tool_progress "WebSearch" 2]).2).toolsUsed⟩) :=
  ⟨by decide, raise_before_completion_one_error_closed [SDKMessage.tool_progress "WebSearch" 2] (by decide)⟩

/-- C3 (counterexample): three consecutive tool_use blocks named WebSearch
produce three tool_start frames, not one — the enqueue is not guarded by
membership in toolsUsed. -/
theorem repeated_tool_invocation_emits_three_frames :
    (runStream ⟨[SDKMessage.assistant (some [ContentBlock.tool_use "WebSearch"]),
                 SDKMessage.assistant (some [ContentBlock.tool_use "WebSearch"]),
                 SDKMessage.assistant (some [ContentBlock.tool_use "WebSearch"])],
               false⟩).items.countP isToolStartItem = 3 ∧
    ¬ ((runStream ⟨[SDKMessage.assistant (some [ContentBlock.tool_use "WebSearch"]),
                    SDKMessage.assistant (some [ContentBlock.tool_use "WebSearch"]),
                    SDKMessage.assistant (some [ContentBlock.tool_use "WebSearch"])],
                  false⟩).items.countP isToolStartItem = 1) := by
  decide

/-- C3 (amended): every tool_use block of an assistant message emits its
own tool_start frame, including repeats of a name already seen — the count
of tool_start frames equals the count of tool_use blocks; the toolsUsed set
deduplicates only the accumulated state (re-adding a present name leaves it
unchanged), which feeds telemetry, not frame emission. -/
theorem tool_start_per_tool_use_block :
    (∀ run : UpstreamRun,
      (runStream run).items.countP isToolStartItem = toolUseBlockCount run.delivered) ∧
    (∀ (s : List String) (n : String), n ∈ s → addTool s n = s) := by
  constructor
  · intro run
    obtain ⟨ms, raises⟩ := run
    have hframes : ((runMessages StreamState.init ms).1).countP isToolStartFrame
        = toolUseBlockCount ms := by
      rw [runMessages_countP isToolStartFrame msgToolUseCount stepMessage_countP_toolStart]
      rfl
    cases raises <;>
      simp [runStream, List.countP_append, List.countP_cons,
        countP_map_frame isToolStartItem isToolStartFrame countP_isToolStartItem_frame,
        hframes, isToolStartItem]
  · intro s n h
    simp [addTool, h]

/-- C3 (witness): the amended theorem at the three-fold WebSearch run, and
the no-op re-insertion at a concrete set. -/
theorem tool_start_per_tool_use_block_witness :
    (runStream ⟨[SDKMessage.assistant (some [ContentBlock.tool_use "WebSearch"]),
                 SDKMessage.assistant (some [ContentBlock.tool_use "WebSearch"]),
                 SDKMessage.assistant (some [ContentBlock.tool_use "WebSearch"])],
               false⟩).items.countP isToolStartItem = 3 ∧
    ("WebSearch" ∈ ["WebSearch"]) ∧
    addTool ["WebSearch"] "WebSearch" = ["WebSearch"] :=
  ⟨(tool_start_per_tool_use_block.1
      ⟨[SDKMessage.assistant (some [ContentBlock.tool_use "WebSearch"]),
        SDKMessage.assistant (some [ContentBlock.tool_use "WebSearch"]),
        SDKMessage.assistant (some [ContentBlock.tool_use "WebSearch"])], false⟩).trans
      (by decide),
   by decide,
   tool_start_per_tool_use_block.2 ["WebSearch"] "WebSearch" (by decide)⟩

/-- C4: a run whose upstream iteration completes without raising and whose
delivered sequence contains exactly one completion_success and zero
completion_failure events produces exactly one done frame, zero error
frames, and the sentinel. -/
theorem single_success_one_done_no_error (run : UpstreamRun)
    (hr : run.raises = false)
    (hs : run.delivered.countP isSuccessResult = 1)
    (hf : run.delivered.countP isFailureResult = 0) :
    (runStream run).items.countP isDoneItem = 1 ∧
    (runStream run).items.countP isErrorItem = 0 ∧
    (runStream run).items.countP isSentinel = 1 := by
  obtain ⟨ms, raises⟩ := run
  cases raises with
  | true => simp at hr
  | false =>
    have hdone : ((runMessages StreamState.init ms).1).countP isDoneFrame = 1 := by
      rw [runMessages_countP isDoneFrame _ stepMessage_countP_done, sum_map_ite_eq_countP]
      exact hs
    have herr : ((runMessages StreamState.init ms).1).countP isErrorFrame = 0 := by
      rw [runMessages_countP isErrorFrame _ stepMessage_countP_error, sum_map_ite_eq_countP]
      exact hf
    refine ⟨?_, ?_, ?_⟩ <;>
      simp [runStream, List.countP_append, List.countP_cons,
        countP_map_frame isDoneItem isDoneFrame countP_isDoneItem_frame,
        countP_map_frame isErrorItem isErrorFrame countP_isErrorItem_frame,
        countP_map_frame_sentinel,
        hdone, herr, isDoneItem, isErrorItem, isSentinel]

/-- C4 (witness): the theorem at the one-event run delivering a single
successful result. -/
theorem single_success_one_done_no_error_witness :
    ((⟨[SDKMessage.result "success"], false⟩ : UpstreamRun).raises = false) ∧
    ([SDKMessage.result "success"].countP isSuccessResult = 1) ∧
    ([SDKMessage.result "success"].countP isFailureResult = 0) ∧
    ((runStream ⟨[SDKMessage.result "success"], false⟩).items.countP isDoneItem = 1 ∧
     (runStream ⟨[SDKMessage.result "success"], false⟩).items.countP isErrorItem = 0 ∧
     (runStream ⟨[SDKMessage.result "success"], false⟩).items.countP isSentinel = 1) :=
  ⟨rfl, by decide, by decide,
   single_success_one_done_no_error ⟨[SDKMessage.result "success"], false⟩ rfl
     (by decide) (by decide)⟩

/-- C5: the text_delta frames appear in the same relative order as the
delivered stream_delta events — the list of their text fields equals the
list of upstream text fragments — and therefore their concatenation equals
the concatenation of the fragments, with no gaps, duplicates, or
reordering; this holds on the success path and on the raising path. -/
theorem text_delta_order_and_concatenation (run : UpstreamRun) :
    frameTexts (runStream run).items = upstreamTexts run.delivered ∧
    String.join (frameTexts (runStream run).items)
      = String.join (upstreamTexts run.delivered) := by
  obtain ⟨ms, raises⟩ := run
  have h : frameTexts (runStream ⟨ms, raises⟩).items = upstreamTexts ms := by
    have hrm := runMessages_filterMap frameText upstreamText
      stepMessage_filterMap_text StreamState.init ms
    cases raises <;>
      simp [runStream, frameTexts, upstreamTexts, List.filterMap_append,
        filterMap_itemText_map_frame, filterMap_itemText_comp, hrm, itemText, frameText,
        List.filterMap_cons]
  exact ⟨h, by rw [h]⟩

/-- C6 (counterexample): a request body whose only key is `turns` has no
`messages` property, so it is rejected with the first 400 response
(Messages array is required), not with No user message found as the claim
states. -/
theorem turns_key_rejected_as_missing_messages :
    chatValidate (some (Json.obj [("turns",
        Json.arr [Json.obj [("role", Json.str "assistant"), ("content", Json.str "hi")]])]))
      = ChatResponse.jsonResponse 400 missingMessagesBody ∧
    missingMessagesBody ≠ noUserBody :=
  ⟨rfl, by decide⟩

/-- C6 (amended): the request field is named `messages`, not `turns`: body
`\x7b\x7d` yields 400 Messages array is required; body with a `messages` array
containing only an assistant turn yields 400 No user message found; a body
with only a `turns` key yields 400 Messages array is required. -/
theorem validation_uses_messages_key :
    chatValidate (some (Json.obj []))
      = ChatResponse.jsonResponse 400 missingMessagesBody ∧
    chatValidate (some (Json.obj [("messages",
        Json.arr [Json.obj [("role", Json.str "assistant"), ("content", Json.str "hi")]])]))
      = ChatResponse.jsonResponse 400 noUserBody ∧
    chatValidate (some (Json.obj [("turns",
        Json.arr [Json.obj [("role", Json.str "assistant"), ("content", Json.str "hi")]])]))
      = ChatResponse.jsonResponse 400 missingMessagesBody :=
  ⟨rfl, rfl, rfl⟩

set_option maxRecDepth 10000 in
/-- C7: for history turns user-A, assistant-B and active query user-C, the
last user message selected is C and the assembled prompt (a pure Lean
function of the request) is the system instruction followed by "User: A",
then "Assistant: B", then "User: C", in that order. -/
theorem prompt_assembly_ordering_concrete :
    lastUserMessage [⟨Role.user, "A"⟩, ⟨Role.assistant, "B"⟩, ⟨Role.user, "C"⟩]
      = some ⟨Role.user, "C"⟩ ∧
    ∃ s1 s2 s3,
      fullPrompt [⟨Role.user, "A"⟩, ⟨Role.assistant, "B"⟩, ⟨Role.user, "C"⟩] ⟨Role.user, "C"⟩
        = SYSTEM_PROMPT ++ s1 ++ "User: A" ++ s2 ++ "Assistant: B" ++ s3 ++ "User: C" :=
  ⟨rfl, "\n\nPrevious conversation:\n", "\n\n", "\n\n", by decide⟩

/-- C8 (counterexample): the 500 bodies of the two endpoints both differ
from the body the claim states, and differ from each other (one says chat
request, the other competitive research request). -/
theorem setup_500_bodies_differ_from_claim :
    chatValidate none = ChatResponse.jsonResponse 500 chat500Body ∧
    researchValidate none = ChatResponse.jsonResponse 500 research500Body ∧
    chat500Body ≠ "\x7b\"error\":\"Failed to process request. Check server logs for details.\"\x7d" ∧
    research500Body ≠ "\x7b\"error\":\"Failed to process request. Check server logs for details.\"\x7d" ∧
    chat500Body ≠ research500Body :=
  ⟨rfl, rfl, by decide, by decide, by decide⟩

/-- C8 (amended): a setup failure (malformed JSON body, or a body on which
destructuring throws) yields HTTP 500 with a generic per-endpoint body:
the chat endpoint says Failed to process chat request, the
competitive-research endpoint says Failed to process competitive research
request; the two bodies are not identical. -/
theorem setup_failure_per_endpoint_500 :
    chatValidate none = ChatResponse.jsonResponse 500 chat500Body ∧
    chatValidate (some Json.null) = ChatResponse.jsonResponse 500 chat500Body ∧
    researchValidate none = ChatResponse.jsonResponse 500 research500Body ∧
    researchValidate (some Json.null) = ChatResponse.jsonResponse 500 research500Body ∧
    chat500Body ≠ research500Body :=
  ⟨rfl, rfl, rfl, rfl, by decide⟩

/-- C9: when the last message has role assistant and a user message exists,
the last user message content appears twice in the assembled prompt: once
inside the rendered history transcript (which excludes only the final
message) and once as the final User line passed as the active query. -/
theorem last_user_content_appears_twice
    (msgs : List MessageInput) (m u : MessageInput)
    (hlast : msgs.getLast? = some m) (hrole : m.role = Role.assistant)
    (hu : lastUserMessage msgs = some u) :
    (∃ p q, conversationContext msgs = p ++ ("User: " ++ u.content) ++ q) ∧
    fullPrompt msgs u
      = SYSTEM_PROMPT ++ "\n\nPrevious conversation:\n" ++ conversationContext msgs
        ++ "\n\nUser: " ++ u.content := by
  have humem : u ∈ msgs.filter (fun m' => m'.role == Role.user) := by
    rw [getLast?_eq_dropLast_concat hu]
    simp
  obtain ⟨humsgs, hurole'⟩ := List.mem_filter.mp humem
  have hurole : u.role = Role.user := by simpa using hurole'
  have hne : u ≠ m := by
    intro he
    subst he
    rw [hrole] at hurole
    simp at hurole
  have hmsgs_eq : msgs = msgs.dropLast ++ [m] := getLast?_eq_dropLast_concat hlast
  have hudrop : u ∈ msgs.dropLast := by
    rcases List.mem_append.mp (hmsgs_eq ▸ humsgs) with h1 | h2
    · exact h1
    · exact absurd (List.mem_singleton.mp h2) hne
  have hrmem : ("User: " ++ u.content) ∈ msgs.dropLast.map renderMessage := by
    have hm := List.mem_map_of_mem renderMessage hudrop
    rwa [renderMessage_user hurole] at hm
  obtain ⟨p, q, hpq⟩ := mem_joinSep "\n\n" hrmem
  have hctx : conversationContext msgs = p ++ ("User: " ++ u.content) ++ q := hpq
  have hctx_ne : conversationContext msgs ≠ "" := by
    intro h0
    have hlen := congrArg String.length hctx
    rw [h0] at hlen
    have h6 : ("User: " : String).length = 6 := rfl
    have h0len : ("" : String).length = 0 := rfl
    simp only [String.length_append, h6, h0len] at hlen
    omega
  refine ⟨⟨p, q, hctx⟩, ?_⟩
  simp only [fullPrompt]
  rw [if_neg hctx_ne]

/-- C9 (witness): the theorem at the two-message request whose last turn is
an assistant turn. -/
theorem last_user_content_appears_twice_witness :
    (([⟨Role.user, "A"⟩, ⟨Role.assistant, "B"⟩] : List MessageInput).getLast?
        = some ⟨Role.assistant, "B"⟩) ∧
    ((⟨Role.assistant, "B"⟩ : MessageInput).role = Role.assistant) ∧
    (lastUserMessage [⟨Role.user, "A"⟩, ⟨Role.assistant, "B"⟩] = some ⟨Role.user, "A"⟩) ∧
    ((∃ p q, conversationContext [⟨Role.user, "A"⟩, ⟨Role.assistant, "B"⟩]
        = p ++ ("User: " ++ (⟨Role.user, "A"⟩ : MessageInput).content) ++ q) ∧
     fullPrompt [⟨Role.user, "A"⟩, ⟨Role.assistant, "B"⟩] ⟨Role.user, "A"⟩
       = SYSTEM_PROMPT ++ "\n\nPrevious conversation:\n"
         ++ conversationContext [⟨Role.user, "A"⟩, ⟨Role.assistant, "B"⟩]
         ++ "\n\nUser: " ++ (⟨Role.user, "A"⟩ : MessageInput).content) :=
  ⟨rfl, rfl, rfl,
   last_user_content_appears_twice [⟨Role.user, "A"⟩, ⟨Role.assistant, "B"⟩]
     ⟨Role.assistant, "B"⟩ ⟨Role.user, "A"⟩ rfl rfl rfl⟩

/-- C10: a body whose messages field is the empty array passes the
array-presence check and fails the user-turn check, yielding 400 No user
message found rather than Messages array is required. -/
theorem empty_messages_array_yields_no_user_found :
    chatValidate (some (Json.obj [("messages", Json.arr [])]))
      = ChatResponse.jsonResponse 400 noUserBody ∧
    noUserBody ≠ missingMessagesBody :=
  ⟨rfl, by decide⟩

end SentryRelay
